import Mathlib

/-!
Verification of the registration delivery pipeline of the landingpages
repository against its specification.

The embedding models the Python sources shallowly:
* `src/core/retry_failed_webhooks.py` — the retry sweep, the conditional
  claim write, the per-channel dispatch retries and the backoff schedule;
* `src/api/v1/endpoints/webinar/routes.py` — the `register_webinar` intake
  flow: tenant resolution, identity-key lookup and merge, the WebinarGeek
  dispatch including the duplicate (HTTP 422) handling, and the response
  builder;
* `src/core/client_config.py` — `get_client_config`.

Conventions: MongoDB documents become structures; collections become lists;
`find_one` becomes `List.find?`; `update_one` by `_id` becomes a `List.map`
replacing the matching element; asynchronous HTTP calls and their outcomes
become explicit input parameters, and the effects a run performs (database
operations, outbound HTTP requests) are returned as lists so that absence of
an effect is provable.  Time is a `Nat` (minutes for the retry clock, seconds
for broadcast dates, matching the unit each source site uses).  Python
truthiness on optional strings and integers is modelled by `pyTruthyStr` and
`pyTruthyNat`.  The `status.lastUpdated` timestamp writes, logging, and
payload fields that no claim touches are not modelled.
-/

/-! ## String helpers (Python `in` on strings, `str.lower`, truthiness) -/

/-- Whether the first list of characters starts the second. -/
def charsStartWith : List Char → List Char → Bool
  | [], _ => true
  | _ :: _, [] => false
  | p :: ps, c :: cs => p == c && charsStartWith ps cs

/-- Whether `pat` occurs contiguously inside the list. -/
def charsContain (pat : List Char) : List Char → Bool
  | [] => charsStartWith pat []
  | c :: cs => charsStartWith pat (c :: cs) || charsContain pat cs

/-- Python `pat in s` on strings. -/
def strHas (s pat : String) : Bool := charsContain pat.toList s.toList

/-- Python `str.lower()` (ASCII view suffices for the matched phrases; built
over the character list so that it evaluates by kernel reduction). -/
def strLower (s : String) : String := String.mk (s.toList.map Char.toLower)

/-- Python truthiness of an optional string: `None` and `""` are falsy. -/
def pyTruthyStr : Option String → Bool
  | none => false
  | some s => s ≠ ""

/-- Python truthiness of an optional integer: `None` and `0` are falsy. -/
def pyTruthyNat : Option Nat → Bool
  | none => false
  | some n => n ≠ 0

/-! ## Data model: registration documents (collection `webinar_registrants`) -/

/-- The `status` sub-document of a registration.  The three `...Sent` flags are
written at intake (`routes.py` lines 491-496); the `googleSheets...` retry
fields are written by the retry job and default (via Python `.get`) to
`False` / `0` / `None` when absent, which `initStatus` mirrors. -/
structure RegStatus where
  webinarGeekSent : Bool
  ghlSent : Bool
  googleSheetsSent : Bool
  googleSheetsInProgress : Bool
  googleSheetsRetryCount : Nat
  googleSheetsNextRetryAt : Option Nat
  googleSheetsFinalState : Option String
  deriving DecidableEq, Repr

/-- Initial status block set by intake (`routes.py` lines 491-496), with the
retry-only fields at their Python `.get` defaults. -/
def initStatus : RegStatus :=
  { webinarGeekSent := false
    ghlSent := false
    googleSheetsSent := false
    googleSheetsInProgress := false
    googleSheetsRetryCount := 0
    googleSheetsNextRetryAt := none
    googleSheetsFinalState := none }

/-- The fields of `registration_data` that the claims touch.  WebinarGeek
response payloads are carried as opaque `Nat` handles (`webinarGeekResponse`);
a `none` handle means the key is absent. -/
structure RegData where
  client_id : String
  email : String
  broadcastId : Option String
  watchLink : Option String
  confirmationLink : Option String
  webinarGeekId : Option Nat
  webinarGeekResponse : Option Nat
  alreadyRegistered : Bool
  webinarGeekError : Option String
  status : RegStatus
  deriving DecidableEq, Repr

/-- A stored document of `webinar_registrants`: a Mongo `_id` plus the data. -/
structure RegDoc where
  _id : Nat
  data : RegData
  deriving DecidableEq, Repr

/-- Replace the status block of a document. -/
def RegDoc.withStatus (r : RegDoc) (st : RegStatus) : RegDoc :=
  { r with data := { r.data with status := st } }

/-! ## Effects performed by the retry sweep

Every `db.webinar_registrants` write and every outbound HTTP request the
sweep code can perform is one constructor, so a run can be instrumented and
the absence of an effect stated. -/

/-- Database writes of `retry_failed_webhooks.py`: the conditional claim
(`find_one_and_update`, lines 435-447) and each unconditional `update_one`. -/
inductive DbOp where
  | sheetsExhausted
  | sheetsClaim
  | sheetsMarkSent
  | sheetsBackoff
  | wgMarkSent
  | wgMarkAlready
  | ghlMarkSent
  deriving DecidableEq, Repr

/-- Outbound HTTP requests of the pipeline. -/
inductive HttpCall where
  | sheetsPost
  | ghlPost
  | wgPost
  | wgLookup
  deriving DecidableEq, Repr

/-- Result of running one sweep-side operation on one registration document:
the document state it leaves in the store, and the effects it performed. -/
structure SweepEffect where
  doc : RegDoc
  ops : List DbOp
  calls : List HttpCall
  deriving DecidableEq, Repr

/-- The no-op effect. -/
def noEffect (r : RegDoc) : SweepEffect := { doc := r, ops := [], calls := [] }

/-! ## The conditional claim and the Google Sheets retry
(`retry_failed_webhooks.py`, `retry_google_sheets_webhook`, lines 405-564) -/

/-- The atomic check-and-set of lines 434-447: `find_one_and_update` filtered
on `status.googleSheetsSent: False` with `$set status.googleSheetsInProgress:
True`.  Returns the post-image on a match and `none` when the filter does not
match (the code receives the pre-image; only its truthiness is used). -/
def claimGoogleSheets (st : RegStatus) : Option RegStatus :=
  if st.googleSheetsSent = false then
    some { st with googleSheetsInProgress := true }
  else
    none

/-- The backoff table of lines 517, 531 and 549:
`{0: 1, 1: 2, 2: 5, 3: 10}.get(retry_count, 30)` minutes. -/
def backoffMinutes (retryCount : Nat) : Nat :=
  if retryCount = 0 then 1
  else if retryCount = 1 then 2
  else if retryCount = 2 then 5
  else if retryCount = 3 then 10
  else 30

/-- Parsed JSON body of a Google Sheets webhook response: the `ok` and
`skipped` flags, each possibly absent. -/
structure SheetsBody where
  okFlag : Option Bool
  skippedFlag : Option Bool
  deriving DecidableEq, Repr

/-- Outcome of one Google Sheets webhook POST, as the code distinguishes them
(lines 477-500): a 2xx response with a JSON body (`ok2xx (some b)`), a 2xx
response whose body is not JSON (`ok2xx none`, treated as success), a 2xx
response whose body raised a non-decode error while being read
(`parseFailed`), a non-2xx status (`httpFail`), or an exception from the POST
itself (`exn`). -/
inductive SheetsResp where
  | ok2xx (body : Option SheetsBody)
  | parseFailed
  | httpFail (status : Nat)
  | exn
  deriving DecidableEq, Repr

/-- Lines 479-497: `ok is True` or a missing `ok` flag or a non-JSON body is
success; `ok is False` is success only with `skipped is True`. -/
def sheetBodySuccess : Option SheetsBody → Bool
  | none => true
  | some b =>
    match b.okFlag with
    | some true => true
    | some false => b.skippedFlag == some true
    | none => true

/-- Which outcomes the code records as retryable failure (backoff path). -/
def sheetsRetryableFailure : SheetsResp → Bool
  | .ok2xx body => !sheetBodySuccess body
  | .parseFailed => true
  | .httpFail _ => true
  | .exn => true

/-- The `$set` of the retryable-failure paths (lines 519-527, 531-541 and
548-559): release `inProgress`, bump the retry count, schedule the next
attempt after the backoff. -/
def sheetsFailureUpdate (st : RegStatus) (retryCount now : Nat) : RegStatus :=
  { st with
    googleSheetsInProgress := false
    googleSheetsRetryCount := retryCount + 1
    googleSheetsNextRetryAt := some (now + backoffMinutes retryCount) }

/-- `retry_google_sheets_webhook` (lines 405-564).  Reads the retry count from
the in-memory document, short-circuits to the terminal `exhausted` marker at
count 5 (lines 420-432), otherwise attempts the conditional claim, and on a
claimed document performs the POST and records the outcome. -/
def retryGoogleSheets (r : RegDoc) (now : Nat) (resp : SheetsResp) : SweepEffect :=
  let retryCount := r.data.status.googleSheetsRetryCount
  if 5 ≤ retryCount then
    { doc := r.withStatus
        { r.data.status with
          googleSheetsInProgress := false
          googleSheetsFinalState := some "exhausted" }
      ops := [DbOp.sheetsExhausted]
      calls := [] }
  else
    match claimGoogleSheets r.data.status with
    | none => { doc := r, ops := [DbOp.sheetsClaim], calls := [] }
    | some claimed =>
      if sheetsRetryableFailure resp then
        { doc := r.withStatus (sheetsFailureUpdate claimed retryCount now)
          ops := [DbOp.sheetsClaim, DbOp.sheetsBackoff]
          calls := [HttpCall.sheetsPost] }
      else
        { doc := r.withStatus
            { claimed with
              googleSheetsSent := true
              googleSheetsInProgress := false
              googleSheetsRetryCount := retryCount
              googleSheetsNextRetryAt := none }
          ops := [DbOp.sheetsClaim, DbOp.sheetsMarkSent]
          calls := [HttpCall.sheetsPost] }

/-! ## The WebinarGeek and GHL retries
(`retry_failed_webhooks.py`, lines 267-402) -/

/-- Outcome of one WebinarGeek retry POST (`retry_webinargeek_registration`):
HTTP 201 with the subscription data, HTTP 422 (already registered), any other
status, or an exception. -/
inductive WgRetryResp where
  | created (wgid : Nat) (watch confirm : Option String)
  | already
  | failStatus (status : Nat)
  | exn
  deriving DecidableEq, Repr

/-- `retry_webinargeek_registration` (lines 267-351): returns early when the
registration has no truthy `broadcastId` (no POST); on 201 stores the id and
links and marks the channel sent; on 422 marks it sent with
`alreadyRegistered`; other statuses and exceptions write nothing. -/
def retryWebinarGeek (r : RegDoc) (resp : WgRetryResp) : SweepEffect :=
  if pyTruthyStr r.data.broadcastId = false then
    noEffect r
  else
    match resp with
    | .created wgid watch confirm =>
      { doc := { r with data :=
          { r.data with
            webinarGeekId := some wgid
            watchLink := watch
            confirmationLink := confirm
            status := { r.data.status with webinarGeekSent := true } } }
        ops := [DbOp.wgMarkSent]
        calls := [HttpCall.wgPost] }
    | .already =>
      { doc := { r with data :=
          { r.data with
            alreadyRegistered := true
            status := { r.data.status with webinarGeekSent := true } } }
        ops := [DbOp.wgMarkAlready]
        calls := [HttpCall.wgPost] }
    | .failStatus _ => { doc := r, ops := [], calls := [HttpCall.wgPost] }
    | .exn => { doc := r, ops := [], calls := [HttpCall.wgPost] }

/-- `retry_ghl_webhook` (lines 354-402): POST the payload; on a 2xx response
mark `status.ghlSent`; on any other status or an exception write nothing.
There is no claim, no retry counter and no backoff for this channel. -/
def retryGhl (r : RegDoc) (ok : Bool) : SweepEffect :=
  if ok then
    { doc := r.withStatus { r.data.status with ghlSent := true }
      ops := [DbOp.ghlMarkSent]
      calls := [HttpCall.ghlPost] }
  else
    { doc := r, ops := [], calls := [HttpCall.ghlPost] }

/-! ## Client configuration (`src/core/client_config.py`) -/

/-- A document of the `clients` collection, reduced to the fields the
pipeline reads via `get_client_config`. -/
structure ClientDoc where
  client_id : String
  status : String
  webinar_geek_api_key : Option String
  google_sheet_url : Option String
  ghl_url : Option String
  deriving DecidableEq, Repr

/-- The extracted configuration `get_client_config` returns. -/
structure ClientConfig where
  client_id : String
  webinar_geek_api_key : Option String
  google_sheet_url : Option String
  ghl_url : Option String
  deriving DecidableEq, Repr

/-- `get_client_config` (`client_config.py` lines 19-104): empty `client_id`
yields `None`; otherwise `find_one` on `client_id` and `status: "active"`,
returning the extracted configuration or `None`. -/
def get_client_config (clients : List ClientDoc) (client_id : String) :
    Option ClientConfig :=
  if client_id = "" then none
  else
    match clients.find? (fun c => c.client_id == client_id && c.status == "active") with
    | none => none
    | some c =>
      some { client_id := c.client_id
             webinar_geek_api_key := c.webinar_geek_api_key
             google_sheet_url := c.google_sheet_url
             ghl_url := c.ghl_url }

/-! ## Processing one selected registration in the sweep
(`retry_failed_webhooks.py`, lines 212-235) -/

/-- External outcomes one sweep pass over one registration can observe:
the clock reading, then the response of each channel that gets dispatched. -/
structure SweepInput where
  now : Nat
  wg : WgRetryResp
  ghlOk : Bool
  sheets : SheetsResp
  deriving DecidableEq, Repr

/-- Lines 212-216: retry WebinarGeek when unsent, an API key is configured,
and no `webinarGeekId` is stored on the registration as fetched. -/
def wgSweepStep (cfg : ClientConfig) (r : RegDoc) (resp : WgRetryResp) :
    SweepEffect :=
  if r.data.status.webinarGeekSent = false ∧
      pyTruthyStr cfg.webinar_geek_api_key = true ∧
      pyTruthyNat r.data.webinarGeekId = false then
    retryWebinarGeek r resp
  else noEffect r

/-- Lines 219-221: retry GHL when unsent and a webhook URL is configured.
`orig` is the registration as fetched (the guard reads it); `cur` is the
store state the previous step left (the effect applies to it). -/
def ghlSweepStep (cfg : ClientConfig) (orig cur : RegDoc) (ok : Bool) :
    SweepEffect :=
  if orig.data.status.ghlSent = false ∧ pyTruthyStr cfg.ghl_url = true then
    retryGhl cur ok
  else noEffect cur

/-- Lines 223-235: retry Google Sheets when unsent and a URL is configured,
unless `googleSheetsNextRetryAt` is set and in the future (deferral).  The
earlier steps never write the sheets fields, so reading the retry state from
`cur` agrees with the original registration the code reads. -/
def sheetsSweepStep (cfg : ClientConfig) (orig cur : RegDoc) (now : Nat)
    (resp : SheetsResp) : SweepEffect :=
  if orig.data.status.googleSheetsSent = false ∧
      pyTruthyStr cfg.google_sheet_url = true then
    match orig.data.status.googleSheetsNextRetryAt with
    | some t =>
      if now < t then noEffect cur
      else retryGoogleSheets cur now resp
    | none => retryGoogleSheets cur now resp
  else noEffect cur

/-- Lines 212-235 of `retry_failed_webhooks`: one sweep pass over one
selected registration; the three channel steps run in source order and their
database effects compose. -/
def processRegistration (cfg : ClientConfig) (r : RegDoc) (inp : SweepInput) :
    SweepEffect :=
  let e1 := wgSweepStep cfg r inp.wg
  let e2 := ghlSweepStep cfg r e1.doc inp.ghlOk
  let e3 := sheetsSweepStep cfg r e2.doc inp.now inp.sheets
  { doc := e3.doc
    ops := e1.ops ++ e2.ops ++ e3.ops
    calls := e1.calls ++ e2.calls ++ e3.calls }

/-- A sequence of sweep passes over one registration: each pass sees the
document state the previous pass left in the store. -/
def runTrace (cfg : ClientConfig) : RegDoc → List SweepInput → List SweepEffect
  | _, [] => []
  | r, inp :: rest =>
    let e := processRegistration cfg r inp
    e :: runTrace cfg e.doc rest

/-! ## Sweep selection (`retry_failed_webhooks.py`, lines 114-160)
and the Broadcast Activity Gate (`is_broadcast_still_active`, lines 36-96) -/

/-- A document of the `upcoming-broadcast` collection (one per client). -/
structure UpcomingDoc where
  client_id : Option String
  broadcast_id : Option String
  deriving DecidableEq, Repr

/-- A document of the `broadcasts` collection, reduced to the fields
`is_broadcast_still_active` reads.  `date` is a Unix timestamp in seconds. -/
structure BroadcastDoc where
  client_id : String
  broadcast_id : String
  has_ended : Bool
  cancelled : Bool
  date : Option Nat
  deriving DecidableEq, Repr

/-- The collections the retry sweep reads. -/
structure SweepDb where
  upcoming : List UpcomingDoc
  registrants : List RegDoc
  broadcasts : List BroadcastDoc
  deriving DecidableEq, Repr

/-- Insert-or-replace on an association list: the effect of one
`client_broadcast_map[client_id] = broadcast_id` dict assignment. -/
def insertReplace (m : List (String × String)) (k v : String) :
    List (String × String) :=
  if m.any (fun p => p.1 == k) then
    m.map (fun p => if p.1 == k then (k, v) else p)
  else m ++ [(k, v)]

/-- Lines 118-133: query `upcoming-broadcast` with `broadcast_id: {$ne: None}`
and build the `client_id -> broadcast_id` map from the documents whose
`client_id` and `broadcast_id` are both truthy. -/
def client_broadcast_map (ubs : List UpcomingDoc) : List (String × String) :=
  (ubs.filter (fun ub => ub.broadcast_id.isSome)).foldl
    (fun m ub =>
      match ub.client_id, ub.broadcast_id with
      | some cid, some bid =>
        if cid ≠ "" ∧ bid ≠ "" then insertReplace m cid bid else m
      | _, _ => m)
    []

/-- The `$or` of the registrant query (lines 148-152): at least one of the
three channel flags is `False`. -/
def hasUnresolvedChannel (r : RegDoc) : Bool :=
  !r.data.status.webinarGeekSent || !r.data.status.ghlSent ||
    !r.data.status.googleSheetsSent

/-- Lines 142-155: for every `(client_id, broadcast_id)` entry of the map,
query `webinar_registrants` for that client and broadcast with an unresolved
channel, and concatenate the batches.  The `to_list(100)` batch caps of the
source are not modelled: collections are finite lists read whole. -/
def selectedRegs (db : SweepDb) : List RegDoc :=
  (client_broadcast_map db.upcoming).flatMap (fun p =>
    db.registrants.filter (fun r =>
      r.data.client_id == p.1 && r.data.broadcastId == some p.2 &&
        hasUnresolvedChannel r))

/-- `is_broadcast_still_active` (lines 36-96), the Broadcast Activity Gate:
empty client is inactive; a `broadcasts` record that has ended, is cancelled,
or whose date lies more than 24 hours (86400 s) in the past is inactive; with
a record that passes those checks, and in every no-record case (the upcoming
check at lines 84-88 and the conservative default at lines 90-96 both return
`True`), the broadcast counts as active. -/
def is_broadcast_still_active (broadcast_id client_id : String) (db : SweepDb)
    (nowSec : Nat) : Bool :=
  if client_id = "" then false
  else
    match db.broadcasts.find? (fun b =>
        b.client_id == client_id && b.broadcast_id == broadcast_id) with
    | some b =>
      if b.has_ended || b.cancelled then false
      else
        match b.date with
        | some d => if d + 86400 < nowSec then false else true
        | none => true
    | none => true

/-! ## Intake: `register_webinar` (`routes.py`, lines 427-914)

The endpoint is modelled as a function of the submission and of an
`IntakeWorld` holding what the environment answers: the `clients` collection,
the registrant store and whether its reads and writes succeed, the
WebinarGeek response, and the best-effort subscription-lookup result. -/

/-- The submission fields the claims touch.  `webinarId` defaults to the
sentinel `"not_available"` in the pydantic model; the WebinarGeek artifact
fields exist on the model (defaulting to `None`), so they are keys of
`registration_data` from the start. -/
structure Submission where
  client_id : String
  email : String
  broadcastId : Option String
  webinarId : Option String
  watchLink : Option String
  confirmationLink : Option String
  webinarGeekId : Option Nat
  webinarGeekResponse : Option Nat
  deriving DecidableEq, Repr

/-- Python `a or b` on two optional strings. -/
def pyOrStr (a b : Option String) : Option String :=
  if pyTruthyStr a then a else b

/-- Line 485 and line 582: a broadcast id is usable when truthy and not one of
the sentinels `"None"`, `"not_available"`, `""`. -/
def validBroadcastId : Option String → Bool
  | none => false
  | some b => b ≠ "" && b ≠ "None" && b ≠ "not_available"

/-- The fallback query of lines 593-600: the `broadcastId` field is missing,
null, or one of the sentinel strings. -/
def isUnknownBroadcast : Option String → Bool
  | none => true
  | some s => s == "None" || s == "not_available" || s == ""

/-- The identity-key predicate of the existing-registration lookup (lines
581-600): with a valid broadcast id, match on `(client_id, email,
broadcastId)`; otherwise match on `(client_id, email)` among the documents
with an unknown broadcast. -/
def identityMatches (cid email : String) (b : Option String) (d : RegDoc) : Bool :=
  if validBroadcastId b then
    d.data.client_id == cid && d.data.email == email && d.data.broadcastId == b
  else
    d.data.client_id == cid && d.data.email == email &&
      isUnknownBroadcast d.data.broadcastId

/-- The `find_one` of lines 581-600 (the branch on the broadcast id is folded
into `identityMatches`). -/
def findExisting (regs : List RegDoc) (cid email : String) (b : Option String) :
    Option RegDoc :=
  regs.find? (identityMatches cid email b)

/-- The `registration_data` dict as it stands after normalization (lines
477-496): the submitted fields, the canonicalized broadcast id (sentinels
popped, line 485-488), and the fresh status block. -/
def initRegData (sub : Submission) (client_id : String) : RegData :=
  let b := pyOrStr sub.broadcastId sub.webinarId
  { client_id := client_id
    email := sub.email
    broadcastId := if validBroadcastId b then b else none
    watchLink := sub.watchLink
    confirmationLink := sub.confirmationLink
    webinarGeekId := sub.webinarGeekId
    webinarGeekResponse := sub.webinarGeekResponse
    alreadyRegistered := false
    webinarGeekError := none
    status := initStatus }

/-- Lines 602-612: preserve the truthy WebinarGeek artifacts of the existing
document in `registration_data` and mark `alreadyRegistered`. -/
def carryForward (data : RegData) (e : RegDoc) : RegData :=
  { data with
    watchLink :=
      if pyTruthyStr e.data.watchLink then e.data.watchLink else data.watchLink
    confirmationLink :=
      if pyTruthyStr e.data.confirmationLink then e.data.confirmationLink
      else data.confirmationLink
    webinarGeekResponse :=
      if e.data.webinarGeekResponse.isSome then e.data.webinarGeekResponse
      else data.webinarGeekResponse
    webinarGeekId :=
      if pyTruthyNat e.data.webinarGeekId then e.data.webinarGeekId
      else data.webinarGeekId
    alreadyRegistered := true }

/-- Lines 619-634: `update_one` by `_id` with `$set registration_data` when an
existing document was found (every modelled field is a key of
`registration_data`, so the matched document becomes the new data under its
old `_id`), else `insert_one`.  Returns the store and the document id. -/
def writeRegData (regs : List RegDoc) (existing : Option RegDoc) (data : RegData)
    (newId : Nat) : List RegDoc × Nat :=
  match existing with
  | some e =>
    (regs.map (fun d => if d._id == e._id then { _id := e._id, data := data } else d),
     e._id)
  | none => (regs ++ [{ _id := newId, data := data }], newId)

/-- The payload of a 201 WebinarGeek response that the code extracts (lines
716-740): the subscription id, the links, and the full response (an opaque
handle here). -/
structure WgCreatedData where
  wgid : Option Nat
  watch : Option String
  confirm : Option String
  respHandle : Nat
  deriving DecidableEq, Repr

/-- Outcome of the synchronous WebinarGeek POST at intake (lines 697-787):
HTTP 201, HTTP 422 carrying `str(error_data)`, any other status, or an
exception. -/
inductive WgIntakeResp where
  | created (d : WgCreatedData)
  | unprocessable (errorMsg : String)
  | otherStatus (status : Nat)
  | exn (msg : String)
  deriving DecidableEq, Repr

/-- The phrase list of lines 754-757. -/
def alreadyRegisteredPhrases : List String :=
  ["already registered", "already signed up", "duplicate", "already exists",
   "email has already been taken"]

/-- Lines 752-757: lowercase the stringified error payload and look for any
of the duplicate phrases. -/
def wgDupMatch (errorMsg : String) : Bool :=
  alreadyRegisteredPhrases.any (fun p => strHas (strLower errorMsg) p)

/-- What `fetch_existing_broadcast_subscription` recovers on success (lines
764-778): the pre-existing subscription id and links plus the response
payload handle. -/
structure SubInfo where
  wgid : Option Nat
  watch : Option String
  confirm : Option String
  respHandle : Nat
  deriving DecidableEq, Repr

/-- Lines 646-792, the WebinarGeek step of intake.  `attempt` is the guard of
line 646 (API key truthy and broadcast id valid).  Returns the updated
`registration_data`, the `wg_success` flag and the HTTP calls made.  The
broadcast-info fields a 201 response can add (lines 727-737) lie outside the
modelled fields. -/
def wgIntakeStep (data : RegData) (attempt : Bool) (resp : WgIntakeResp)
    (lookup : Option SubInfo) : RegData × Bool × List HttpCall :=
  if attempt then
    match resp with
    | .created d =>
      ({ data with
         webinarGeekId := d.wgid
         confirmationLink := d.confirm
         watchLink := d.watch
         webinarGeekResponse := some d.respHandle },
       true, [HttpCall.wgPost])
    | .unprocessable msg =>
      if wgDupMatch msg then
        let dataA := { data with alreadyRegistered := true }
        match lookup with
        | some s =>
          ({ dataA with
             webinarGeekId := s.wgid
             watchLink := s.watch
             confirmationLink := s.confirm
             webinarGeekResponse := some s.respHandle },
           true, [HttpCall.wgPost, HttpCall.wgLookup])
        | none => (dataA, true, [HttpCall.wgPost, HttpCall.wgLookup])
      else (data, false, [HttpCall.wgPost])
    | .otherStatus _ => (data, false, [HttpCall.wgPost])
    | .exn m => ({ data with webinarGeekError := some m }, false, [HttpCall.wgPost])
  else (data, false, [])

/-- The response record built at lines 856-906, reduced to the fields the
claims touch. -/
structure RespData where
  success : Bool
  message : String
  note : Option String
  watchLink : Option String
  confirmationLink : Option String
  webinarGeekStatus : Option String
  deriving DecidableEq, Repr

/-- Message of the store-unavailable branch (line 869). -/
def msgDbDown : String := "Registration successful! Your information has been recorded."

/-- Note of the store-unavailable branch (line 870). -/
def noteDbDown : String :=
  "You\x27ll receive your confirmation and webinar details via email shortly."

/-- Lines 856-899: the response builder.  The increment of the display
counter (non-critical, line 883) is not modelled. -/
def buildIntakeResponse (dbAvailable wgSuccess : Bool) (d : RegData) : RespData :=
  if dbAvailable = false then
    { success := true
      message := msgDbDown
      note := some noteDbDown
      watchLink := d.watchLink
      confirmationLink := d.confirmationLink
      webinarGeekStatus := some (if wgSuccess then "registered" else "pending") }
  else if (wgSuccess && d.watchLink.isSome) || pyTruthyStr d.watchLink then
    { success := true
      message :=
        if d.alreadyRegistered then "You\x27re already registered for this broadcast"
        else "Registration successful"
      note :=
        if d.alreadyRegistered then some "Your webinar access link is below."
        else none
      watchLink := d.watchLink
      confirmationLink := d.confirmationLink
      webinarGeekStatus := some "registered" }
  else if d.alreadyRegistered then
    { success := true
      message := "You\x27re already registered for this broadcast"
      note := some "You should have received your webinar details via email."
      watchLink := none
      confirmationLink := none
      webinarGeekStatus := some "registered" }
  else if d.webinarGeekError.isSome then
    { success := true
      message := "Registration saved! You\x27ll receive your confirmation via email shortly."
      note := none
      watchLink := none
      confirmationLink := none
      webinarGeekStatus := some "pending" }
  else
    { success := true
      message := "Registration saved. Processing webinar details..."
      note := none
      watchLink := none
      confirmationLink := none
      webinarGeekStatus := some "pending" }

/-- What the environment answers during one intake request. -/
structure IntakeWorld where
  clients : List ClientDoc
  regs : List RegDoc
  dbQueryOk : Bool
  dbWriteOk : Bool
  wg : WgIntakeResp
  lookup : Option SubInfo
  newId : Nat
  deriving DecidableEq, Repr

/-- The HTTP-level outcome of the endpoint: a raised `HTTPException` with its
status code, or a JSON response. -/
inductive IntakeResponse where
  | httpError (status : Nat)
  | ok (resp : RespData)
  deriving DecidableEq, Repr

/-- Result of one intake request: the HTTP response, the registrant store
afterwards, the HTTP calls fired, and the final enriched `registration_data`
(absent when the request was rejected before normalization). -/
structure IntakeResult where
  response : IntakeResponse
  regs : List RegDoc
  calls : List HttpCall
  finalData : Option RegData
  deriving DecidableEq, Repr

/-- The active-client body of `register_webinar` (lines 459-908; the
fail-closed client resolution of lines 447-457 lives in `registerWebinar`
below).  The Google Sheets webhook
fires first (lines 502-571, recorded as a call when a URL is configured); a
failed store read leaves `existing = None` and marks the store unavailable
(lines 614-617); a failed store write does the same (lines 635-637); the
WebinarGeek step runs next, its artifacts are written back when it succeeded
or found a duplicate (lines 794-808); the GHL webhook fires in the background
whenever a URL is configured (lines 816-849); the response is then built. -/
def registerWebinarActive (w : IntakeWorld) (sub : Submission)
    (cfg : ClientConfig) : IntakeResult :=
  let b := pyOrStr sub.broadcastId sub.webinarId
  let data0 := initRegData sub sub.client_id
  let calls0 := if pyTruthyStr cfg.google_sheet_url then [HttpCall.sheetsPost] else []
  let existing :=
    if w.dbQueryOk then findExisting w.regs sub.client_id sub.email b else none
  let data1 :=
    match existing with
    | some e => carryForward data0 e
    | none => data0
  let writeDone := w.dbQueryOk && w.dbWriteOk
  let written :=
    if writeDone then
      let wr := writeRegData w.regs existing data1 w.newId
      (wr.1, some wr.2)
    else (w.regs, (none : Option Nat))
  let wgAttempt := pyTruthyStr cfg.webinar_geek_api_key && validBroadcastId b
  let wgStep := wgIntakeStep data1 wgAttempt w.wg w.lookup
  let data2 := wgStep.1
  let wgSuccess := wgStep.2.1
  let data3 :=
    if wgSuccess then
      { data2 with status := { data2.status with webinarGeekSent := true } }
    else data2
  let regs2 :=
    if wgSuccess || data3.alreadyRegistered then
      match written.2 with
      | some i =>
        if w.dbWriteOk then
          written.1.map (fun d => if d._id == i then { _id := i, data := data3 } else d)
        else written.1
      | none => written.1
    else written.1
  let callsGhl := if pyTruthyStr cfg.ghl_url then [HttpCall.ghlPost] else []
  let dbAvailable := w.dbQueryOk && w.dbWriteOk
  { response := .ok (buildIntakeResponse dbAvailable wgSuccess data3)
    regs := regs2
    calls := calls0 ++ wgStep.2.2 ++ callsGhl
    finalData := some data3 }

/-- The endpoint entry: resolve the client first; an absent or inactive
client is rejected with HTTP 400 before any store access or dispatch
(lines 447-457). -/
def registerWebinar (w : IntakeWorld) (sub : Submission) : IntakeResult :=
  match get_client_config w.clients sub.client_id with
  | none =>
    { response := .httpError 400, regs := w.regs, calls := [], finalData := none }
  | some cfg => registerWebinarActive w sub cfg

/-- The `webinarGeekStatus` field of a non-error response. -/
def IntakeResponse.wgStatusField : IntakeResponse → Option (Option String)
  | .httpError _ => none
  | .ok rd => some rd.webinarGeekStatus

/-- The `success` flag of a non-error response. -/
def IntakeResponse.successField : IntakeResponse → Option Bool
  | .httpError _ => none
  | .ok rd => some rd.success

/-- The `message` field of a non-error response. -/
def IntakeResponse.messageField : IntakeResponse → Option String
  | .httpError _ => none
  | .ok rd => some rd.message

/-- The `note` field of a non-error response. -/
def IntakeResponse.noteField : IntakeResponse → Option (Option String)
  | .httpError _ => none
  | .ok rd => some rd.note

/-! ## Trace predicates and concrete instances used by the theorems -/

/-- Whether no pass of a trace performs a sheets claim or a sheets POST. -/
def traceNoSheetsAttempt (es : List SweepEffect) : Bool :=
  es.all (fun e => !(decide (DbOp.sheetsClaim ∈ e.ops)) &&
    !(decide (HttpCall.sheetsPost ∈ e.calls)))

/-- Whether no pass of a trace performs a WebinarGeek POST. -/
def traceNoWgPost (es : List SweepEffect) : Bool :=
  es.all (fun e => !(decide (HttpCall.wgPost ∈ e.calls)))

/-- Modelled from the spec: the spec requires the store-unavailable response
to note "explicitly" that "the record was not durably saved" (the concrete
response text is absent from the spec).  A message can only do that if it
contains negation or persistence vocabulary; this predicate accepts every
such phrasing ("not ...", "unsaved", "persist...", "saved", "durab..."). -/
def mentionsUnpersisted (s : String) : Bool :=
  strHas (strLower s) "not" || strHas (strLower s) "unsaved" ||
    strHas (strLower s) "persist" || strHas (strLower s) "saved" ||
    strHas (strLower s) "durab"

/-- A status block whose sheets channel is mid-claim (`inProgress` set) while
`sent` is still false. -/
def c1Claimed : RegStatus :=
  { webinarGeekSent := false
    ghlSent := false
    googleSheetsSent := false
    googleSheetsInProgress := true
    googleSheetsRetryCount := 0
    googleSheetsNextRetryAt := none
    googleSheetsFinalState := none }

/-- A registration with two failed sheets attempts pending a third. -/
def c3Doc : RegDoc :=
  { _id := 7
    data :=
      { client_id := "c1"
        email := "a@x.com"
        broadcastId := some "b1"
        watchLink := none
        confirmationLink := none
        webinarGeekId := none
        webinarGeekResponse := none
        alreadyRegistered := false
        webinarGeekError := none
        status := { initStatus with googleSheetsRetryCount := 2 } } }

/-- A registration whose sheets retry count reached the cap. -/
def c4CapDoc : RegDoc :=
  { c3Doc with data := { c3Doc.data with
      status := { c3Doc.data.status with googleSheetsRetryCount := 5 } } }

/-- A client configured only for the GHL channel. -/
def ghlOnlyCfg : ClientConfig :=
  { client_id := "c1"
    webinar_geek_api_key := none
    google_sheet_url := none
    ghl_url := some "https://ghl.example/hook" }

/-- A registration whose only unresolved channel is GHL. -/
def ghlFailedDoc : RegDoc :=
  { _id := 1
    data :=
      { client_id := "c1"
        email := "a@x.com"
        broadcastId := some "b1"
        watchLink := none
        confirmationLink := none
        webinarGeekId := none
        webinarGeekResponse := none
        alreadyRegistered := false
        webinarGeekError := none
        status :=
          { initStatus with
            webinarGeekSent := true
            googleSheetsSent := true } } }

/-- A sweep pass in which every dispatched channel fails. -/
def ghlFailInput : SweepInput :=
  { now := 0, wg := WgRetryResp.exn, ghlOk := false, sheets := SheetsResp.exn }

/-- A fully unresolved registration of client `c1` on broadcast `b1`. -/
def c5reg : RegDoc :=
  { _id := 3
    data :=
      { client_id := "c1"
        email := "u@x.com"
        broadcastId := some "b1"
        watchLink := none
        confirmationLink := none
        webinarGeekId := none
        webinarGeekResponse := none
        alreadyRegistered := false
        webinarGeekError := none
        status := initStatus } }

/-- A database in which broadcast `b1` is still the upcoming broadcast of
client `c1` but its `broadcasts` record is marked ended. -/
def c5db : SweepDb :=
  { upcoming := [{ client_id := some "c1", broadcast_id := some "b1" }]
    registrants := [c5reg]
    broadcasts :=
      [{ client_id := "c1"
         broadcast_id := "b1"
         has_ended := true
         cancelled := false
         date := none }] }

/-- A stored registration that already holds WebinarGeek artifacts. -/
def c2Existing : RegDoc :=
  { _id := 10
    data :=
      { client_id := "c1"
        email := "a@x.com"
        broadcastId := some "b1"
        watchLink := some "https://watch.example/w"
        confirmationLink := some "https://watch.example/confirm"
        webinarGeekId := some 42
        webinarGeekResponse := some 1
        alreadyRegistered := false
        webinarGeekError := none
        status := initStatus } }

/-- A re-submission carrying the same identity key as `c2Existing`. -/
def exSub : Submission :=
  { client_id := "c1"
    email := "a@x.com"
    broadcastId := some "b1"
    webinarId := some "not_available"
    watchLink := none
    confirmationLink := none
    webinarGeekId := none
    webinarGeekResponse := none }

/-- An active client with all three channels configured. -/
def exClients : List ClientDoc :=
  [{ client_id := "c1"
     status := "active"
     webinar_geek_api_key := some "key-1"
     google_sheet_url := some "https://script.example/sheet"
     ghl_url := some "https://ghl.example/hook" }]

/-- The configuration `get_client_config` extracts from `exClients`. -/
def exCfg : ClientConfig :=
  { client_id := "c1"
    webinar_geek_api_key := some "key-1"
    google_sheet_url := some "https://script.example/sheet"
    ghl_url := some "https://ghl.example/hook" }

/-- An intake world with a working store and a WebinarGeek duplicate (422)
response. -/
def c7World : IntakeWorld :=
  { clients := exClients
    regs := []
    dbQueryOk := true
    dbWriteOk := true
    wg := WgIntakeResp.unprocessable "Email Already Registered for broadcast"
    lookup := some { wgid := some 7, watch := some "https://watch.example/w7",
                     confirm := some "https://watch.example/c7", respHandle := 2 }
    newId := 5 }

/-- An intake world in which every store read and write fails. -/
def c8World : IntakeWorld :=
  { clients := exClients
    regs := [c2Existing]
    dbQueryOk := false
    dbWriteOk := false
    wg := WgIntakeResp.created { wgid := some 9, watch := some "https://watch.example/w9",
                                 confirm := some "https://watch.example/c9", respHandle := 3 }
    lookup := none
    newId := 6 }

/-- An intake world whose only client is suspended. -/
def c9World : IntakeWorld :=
  { clients :=
      [{ client_id := "c1"
         status := "suspended"
         webinar_geek_api_key := some "key-1"
         google_sheet_url := some "https://script.example/sheet"
         ghl_url := some "https://ghl.example/hook" }]
    regs := [c2Existing]
    dbQueryOk := true
    dbWriteOk := true
    wg := WgIntakeResp.otherStatus 500
    lookup := none
    newId := 6 }

/-- A registration carrying a stored `webinarGeekId` whose platform channel
is still unresolved. -/
def c10Doc : RegDoc :=
  { _id := 4
    data := { c5reg.data with webinarGeekId := some 42, email := "a@x.com" } }

/-! ## Frame lemmas for the sweep steps -/

/-- The WebinarGeek retry never touches the Google Sheets fields and performs
no sheets claim, no sheets POST and no GHL POST. -/
theorem retryWebinarGeek_frame (r : RegDoc) (resp : WgRetryResp) :
    (retryWebinarGeek r resp).doc.data.status.googleSheetsSent =
      r.data.status.googleSheetsSent ∧
    (retryWebinarGeek r resp).doc.data.status.googleSheetsRetryCount =
      r.data.status.googleSheetsRetryCount ∧
    (retryWebinarGeek r resp).doc.data.status.googleSheetsNextRetryAt =
      r.data.status.googleSheetsNextRetryAt ∧
    DbOp.sheetsClaim ∉ (retryWebinarGeek r resp).ops ∧
    HttpCall.sheetsPost ∉ (retryWebinarGeek r resp).calls ∧
    HttpCall.ghlPost ∉ (retryWebinarGeek r resp).calls := by
  unfold retryWebinarGeek
  by_cases h : pyTruthyStr r.data.broadcastId = false
  · simp [h, noEffect]
  · cases resp <;> simp [h, noEffect]

/-- The guarded WebinarGeek step inherits the frame of the retry. -/
theorem wgSweepStep_frame (cfg : ClientConfig) (r : RegDoc) (resp : WgRetryResp) :
    (wgSweepStep cfg r resp).doc.data.status.googleSheetsSent =
      r.data.status.googleSheetsSent ∧
    (wgSweepStep cfg r resp).doc.data.status.googleSheetsRetryCount =
      r.data.status.googleSheetsRetryCount ∧
    (wgSweepStep cfg r resp).doc.data.status.googleSheetsNextRetryAt =
      r.data.status.googleSheetsNextRetryAt ∧
    DbOp.sheetsClaim ∉ (wgSweepStep cfg r resp).ops ∧
    HttpCall.sheetsPost ∉ (wgSweepStep cfg r resp).calls ∧
    HttpCall.ghlPost ∉ (wgSweepStep cfg r resp).calls := by
  unfold wgSweepStep
  split_ifs with h
  · exact retryWebinarGeek_frame r resp
  · simp [noEffect]

/-- When a `webinarGeekId` is stored, the WebinarGeek step is skipped. -/
theorem wgSweepStep_skip (cfg : ClientConfig) (r : RegDoc) (resp : WgRetryResp)
    (h : pyTruthyNat r.data.webinarGeekId = true) :
    wgSweepStep cfg r resp = noEffect r := by
  unfold wgSweepStep
  rw [if_neg]
  rintro ⟨-, -, h2⟩
  rw [h] at h2
  exact absurd h2 (by simp)

/-- The GHL retry only flips `ghlSent`, performs exactly one GHL POST, and
writes at most the `ghlSent` status update. -/
theorem retryGhl_frame (r : RegDoc) (ok : Bool) :
    (retryGhl r ok).doc.data.webinarGeekId = r.data.webinarGeekId ∧
    (retryGhl r ok).doc.data.status.googleSheetsSent =
      r.data.status.googleSheetsSent ∧
    (retryGhl r ok).doc.data.status.googleSheetsRetryCount =
      r.data.status.googleSheetsRetryCount ∧
    (retryGhl r ok).doc.data.status.googleSheetsNextRetryAt =
      r.data.status.googleSheetsNextRetryAt ∧
    (retryGhl r ok).ops = (if ok then [DbOp.ghlMarkSent] else []) ∧
    (retryGhl r ok).calls = [HttpCall.ghlPost] := by
  cases ok <;> simp [retryGhl, RegDoc.withStatus, noEffect]

/-- The guarded GHL step never claims or POSTs the other channels. -/
theorem ghlSweepStep_frame (cfg : ClientConfig) (orig cur : RegDoc) (ok : Bool) :
    (ghlSweepStep cfg orig cur ok).doc.data.webinarGeekId =
      cur.data.webinarGeekId ∧
    (ghlSweepStep cfg orig cur ok).doc.data.status.googleSheetsSent =
      cur.data.status.googleSheetsSent ∧
    (ghlSweepStep cfg orig cur ok).doc.data.status.googleSheetsRetryCount =
      cur.data.status.googleSheetsRetryCount ∧
    (ghlSweepStep cfg orig cur ok).doc.data.status.googleSheetsNextRetryAt =
      cur.data.status.googleSheetsNextRetryAt ∧
    DbOp.sheetsClaim ∉ (ghlSweepStep cfg orig cur ok).ops ∧
    HttpCall.sheetsPost ∉ (ghlSweepStep cfg orig cur ok).calls ∧
    HttpCall.wgPost ∉ (ghlSweepStep cfg orig cur ok).calls := by
  unfold ghlSweepStep
  split_ifs with h
  · obtain ⟨h1, h2, h3, h4, h5, h6⟩ := retryGhl_frame cur ok
    refine ⟨h1, h2, h3, h4, ?_, ?_, ?_⟩ <;> cases ok <;> simp_all
  · simp [noEffect]

/-- At the retry cap, the sheets retry writes only the terminal marker:
`inProgress` released, `googleSheetsFinalState = "exhausted"`, the count and
the `sent` flag untouched, no claim and no POST. -/
theorem retryGoogleSheets_exhausted (r : RegDoc) (now : Nat) (resp : SheetsResp)
    (h : 5 ≤ r.data.status.googleSheetsRetryCount) :
    (retryGoogleSheets r now resp).doc.data.status.googleSheetsRetryCount =
      r.data.status.googleSheetsRetryCount ∧
    (retryGoogleSheets r now resp).doc.data.status.googleSheetsFinalState =
      some "exhausted" ∧
    (retryGoogleSheets r now resp).doc.data.status.googleSheetsInProgress = false ∧
    (retryGoogleSheets r now resp).doc.data.status.googleSheetsSent =
      r.data.status.googleSheetsSent ∧
    (retryGoogleSheets r now resp).ops = [DbOp.sheetsExhausted] ∧
    (retryGoogleSheets r now resp).calls = [] := by
  unfold retryGoogleSheets
  rw [if_pos h]
  simp [RegDoc.withStatus]

/-- The sheets retry never touches the WebinarGeek id and only POSTs to the
sheets webhook, and only after the claim succeeded. -/
theorem retryGoogleSheets_wg_frame (r : RegDoc) (now : Nat) (resp : SheetsResp) :
    (retryGoogleSheets r now resp).doc.data.webinarGeekId =
      r.data.webinarGeekId ∧
    HttpCall.wgPost ∉ (retryGoogleSheets r now resp).calls ∧
    HttpCall.ghlPost ∉ (retryGoogleSheets r now resp).calls ∧
    (HttpCall.sheetsPost ∈ (retryGoogleSheets r now resp).calls →
      DbOp.sheetsClaim ∈ (retryGoogleSheets r now resp).ops) := by
  unfold retryGoogleSheets claimGoogleSheets
  by_cases h5 : 5 ≤ r.data.status.googleSheetsRetryCount
  · simp [h5, RegDoc.withStatus]
  · by_cases hs : r.data.status.googleSheetsSent = false
    · by_cases hf : sheetsRetryableFailure resp <;>
        simp [h5, hs, hf, RegDoc.withStatus]
    · simp [h5, hs]

/-- The guarded sheets step inherits the sheets-retry frame. -/
theorem sheetsSweepStep_wg_frame (cfg : ClientConfig) (orig cur : RegDoc)
    (now : Nat) (resp : SheetsResp) :
    (sheetsSweepStep cfg orig cur now resp).doc.data.webinarGeekId =
      cur.data.webinarGeekId ∧
    HttpCall.wgPost ∉ (sheetsSweepStep cfg orig cur now resp).calls ∧
    HttpCall.ghlPost ∉ (sheetsSweepStep cfg orig cur now resp).calls ∧
    (HttpCall.sheetsPost ∈ (sheetsSweepStep cfg orig cur now resp).calls →
      DbOp.sheetsClaim ∈ (sheetsSweepStep cfg orig cur now resp).ops) := by
  unfold sheetsSweepStep
  split_ifs with h
  · cases hn : orig.data.status.googleSheetsNextRetryAt with
    | none => exact retryGoogleSheets_wg_frame cur now resp
    | some t =>
      by_cases ht : now < t
      · simp [ht, noEffect]
      · simpa [ht] using retryGoogleSheets_wg_frame cur now resp
  · simp [noEffect]

/-- The guarded sheets step preserves an at-cap retry count and attempts no
claim and no POST there. -/
theorem sheetsSweepStep_exhausted (cfg : ClientConfig) (orig cur : RegDoc)
    (now : Nat) (resp : SheetsResp)
    (h : 5 ≤ cur.data.status.googleSheetsRetryCount) :
    5 ≤ (sheetsSweepStep cfg orig cur now
        resp).doc.data.status.googleSheetsRetryCount ∧
    DbOp.sheetsClaim ∉ (sheetsSweepStep cfg orig cur now resp).ops ∧
    HttpCall.sheetsPost ∉ (sheetsSweepStep cfg orig cur now resp).calls := by
  unfold sheetsSweepStep
  split_ifs with hg
  · cases hn : orig.data.status.googleSheetsNextRetryAt with
    | none =>
      obtain ⟨h1, -, -, -, h5, h6⟩ := retryGoogleSheets_exhausted cur now resp h
      rw [h1, h5, h6]
      simpa using h
    | some t =>
      by_cases ht : now < t
      · simpa [ht, noEffect] using h
      · obtain ⟨h1, -, -, -, h5, h6⟩ := retryGoogleSheets_exhausted cur now resp h
        simp only [if_neg ht]
        rw [h1, h5, h6]
        simpa using h
  · simpa [noEffect] using h

/-- When `nextRetryAt` lies in the future the sheets step is a no-op. -/
theorem sheetsSweepStep_deferred (cfg : ClientConfig) (orig cur : RegDoc)
    (now : Nat) (resp : SheetsResp) (t : Nat)
    (hn : orig.data.status.googleSheetsNextRetryAt = some t) (ht : now < t) :
    sheetsSweepStep cfg orig cur now resp = noEffect cur := by
  unfold sheetsSweepStep
  split_ifs with h
  · rw [hn]
    simp [ht]
  · rfl

/-- When `sent` is already true the claim fails and the retry does nothing
beyond the attempted conditional write. -/
theorem retryGoogleSheets_claim_fails (r : RegDoc) (now : Nat) (resp : SheetsResp)
    (hsent : r.data.status.googleSheetsSent = true)
    (hcap : r.data.status.googleSheetsRetryCount < 5) :
    retryGoogleSheets r now resp =
      { doc := r, ops := [DbOp.sheetsClaim], calls := [] } := by
  unfold retryGoogleSheets claimGoogleSheets
  rw [if_neg (by omega), if_neg (by simp [hsent])]

/-- On a claimed registration below the cap, a retryable failure records
exactly the release-and-backoff update. -/
theorem retryGoogleSheets_failure_update (r : RegDoc) (now : Nat)
    (resp : SheetsResp) (hcap : r.data.status.googleSheetsRetryCount < 5)
    (hsent : r.data.status.googleSheetsSent = false)
    (hfail : sheetsRetryableFailure resp = true) :
    (retryGoogleSheets r now resp).doc.data.status =
      sheetsFailureUpdate { r.data.status with googleSheetsInProgress := true }
        r.data.status.googleSheetsRetryCount now := by
  unfold retryGoogleSheets claimGoogleSheets
  rw [if_neg (by omega), if_pos hsent]
  simp only [if_pos hfail]
  rfl

/-- One sweep pass on a registration whose sheets retry count reached the
cap: the count stays at or above the cap and neither a sheets claim nor a
sheets POST happens. -/
theorem processRegistration_exhausted_step (cfg : ClientConfig) (r : RegDoc)
    (inp : SweepInput) (h : 5 ≤ r.data.status.googleSheetsRetryCount) :
    5 ≤ (processRegistration cfg r inp).doc.data.status.googleSheetsRetryCount ∧
    DbOp.sheetsClaim ∉ (processRegistration cfg r inp).ops ∧
    HttpCall.sheetsPost ∉ (processRegistration cfg r inp).calls := by
  obtain ⟨-, a2, -, a4, a5, -⟩ := wgSweepStep_frame cfg r inp.wg
  obtain ⟨-, -, b3, -, b5, b6, -⟩ :=
    ghlSweepStep_frame cfg r (wgSweepStep cfg r inp.wg).doc inp.ghlOk
  have hcur : 5 ≤ (ghlSweepStep cfg r (wgSweepStep cfg r inp.wg).doc
      inp.ghlOk).doc.data.status.googleSheetsRetryCount := by
    rw [b3, a2]; exact h
  obtain ⟨c1, c2, c3⟩ := sheetsSweepStep_exhausted cfg r
    (ghlSweepStep cfg r (wgSweepStep cfg r inp.wg).doc inp.ghlOk).doc
    inp.now inp.sheets hcur
  unfold processRegistration
  refine ⟨c1, ?_, ?_⟩ <;> simp_all [List.mem_append]

/-- One sweep pass on a registration carrying a stored `webinarGeekId`: the
id stays stored and no WebinarGeek POST happens. -/
theorem processRegistration_wgid_step (cfg : ClientConfig) (r : RegDoc)
    (inp : SweepInput) (h : pyTruthyNat r.data.webinarGeekId = true) :
    pyTruthyNat (processRegistration cfg r inp).doc.data.webinarGeekId = true ∧
    HttpCall.wgPost ∉ (processRegistration cfg r inp).calls := by
  have hskip := wgSweepStep_skip cfg r inp.wg h
  obtain ⟨g1, -, -, -, -, -, g7⟩ :=
    ghlSweepStep_frame cfg r (wgSweepStep cfg r inp.wg).doc inp.ghlOk
  obtain ⟨s1, s2, -, -⟩ := sheetsSweepStep_wg_frame cfg r
    (ghlSweepStep cfg r (wgSweepStep cfg r inp.wg).doc inp.ghlOk).doc
    inp.now inp.sheets
  unfold processRegistration
  constructor
  · rw [s1, g1, hskip]
    simpa [noEffect] using h
  · rw [hskip]
    simp_all [List.mem_append, noEffect]

/-- Along any trace starting at or above the cap, no pass claims or POSTs
the sheets channel. -/
theorem runTrace_exhausted (cfg : ClientConfig) (r : RegDoc)
    (inputs : List SweepInput) (h : 5 ≤ r.data.status.googleSheetsRetryCount) :
    traceNoSheetsAttempt (runTrace cfg r inputs) = true := by
  induction inputs generalizing r with
  | nil => rfl
  | cons inp rest ih =>
    obtain ⟨h1, h2, h3⟩ := processRegistration_exhausted_step cfg r inp h
    unfold runTrace traceNoSheetsAttempt
    simp only [List.all_cons, Bool.and_eq_true, Bool.not_eq_true',
      decide_eq_false_iff_not]
    exact ⟨⟨h2, h3⟩, by simpa [traceNoSheetsAttempt] using ih _ h1⟩

/-- Along any trace starting with a stored `webinarGeekId`, no pass POSTs the
WebinarGeek channel. -/
theorem runTrace_wgid (cfg : ClientConfig) (r : RegDoc)
    (inputs : List SweepInput) (h : pyTruthyNat r.data.webinarGeekId = true) :
    traceNoWgPost (runTrace cfg r inputs) = true := by
  induction inputs generalizing r with
  | nil => rfl
  | cons inp rest ih =>
    obtain ⟨h1, h2⟩ := processRegistration_wgid_step cfg r inp h
    unfold runTrace traceNoWgPost
    simp only [List.all_cons, Bool.and_eq_true, Bool.not_eq_true',
      decide_eq_false_iff_not]
    exact ⟨h2, by simpa [traceNoWgPost] using ih _ h1⟩

/-! ## Intake helper lemmas -/

/-- A 422 response matching a duplicate phrase marks `alreadyRegistered`,
counts as success and performs the best-effort subscription lookup. -/
theorem wgIntakeStep_duplicate (data : RegData) (msg : String)
    (lookup : Option SubInfo) (hdup : wgDupMatch msg = true) :
    (wgIntakeStep data true (WgIntakeResp.unprocessable msg)
        lookup).1.alreadyRegistered = true ∧
    (wgIntakeStep data true (WgIntakeResp.unprocessable msg) lookup).2.1 = true ∧
    HttpCall.wgLookup ∈
      (wgIntakeStep data true (WgIntakeResp.unprocessable msg) lookup).2.2 := by
  unfold wgIntakeStep
  cases lookup <;> simp [hdup]

/-- With `wg_success` and `alreadyRegistered`, every branch of the response
builder surfaces platform status "registered" on a successful response. -/
theorem buildIntakeResponse_registered (dbA : Bool) (d : RegData)
    (h : d.alreadyRegistered = true) :
    (buildIntakeResponse dbA true d).webinarGeekStatus = some "registered" ∧
    (buildIntakeResponse dbA true d).success = true := by
  unfold buildIntakeResponse
  cases dbA
  · simp
  · simp only [h]
    split_ifs <;> simp

/-- Whenever the WebinarGeek dispatch is attempted at intake, a POST to the
platform is among the calls, whatever the response. -/
theorem wgIntakeStep_attempt_posts (data : RegData) (resp : WgIntakeResp)
    (lookup : Option SubInfo) :
    HttpCall.wgPost ∈ (wgIntakeStep data true resp lookup).2.2 := by
  unfold wgIntakeStep
  cases resp with
  | created d => simp
  | unprocessable msg =>
    by_cases hdup : wgDupMatch msg = true
    · cases lookup <;> simp [hdup]
    · simp [hdup]
  | otherStatus s => simp
  | exn m => simp

/-- The merged registration data still matches the identity key it was looked
up under. -/
theorem merged_matches_identity (sub : Submission) (e : RegDoc) :
    identityMatches sub.client_id sub.email (pyOrStr sub.broadcastId sub.webinarId)
      { _id := e._id
        data := carryForward (initRegData sub sub.client_id) e } = true := by
  unfold identityMatches carryForward initRegData
  by_cases hv : validBroadcastId (pyOrStr sub.broadcastId sub.webinarId) = true
  · simp [hv]
  · simp [hv, isUnknownBroadcast]

/-! ## Claim theorems -/

/-- Claim C1, counterexample: the conditional claim write of
`retry_google_sheets_webhook` filters only on `googleSheetsSent = false` and
does not consult `googleSheetsInProgress`, so it succeeds from a state whose
`inProgress` flag is already set; consequently a claim performed right after
a successful claim succeeds as well, so of two concurrent claim attempts both
can succeed, contradicting the claimed `sent=false AND inProgress=false`
filter and the claimed exclusivity. -/
theorem c1_counterexample :
    c1Claimed.googleSheetsInProgress = true ∧
    claimGoogleSheets c1Claimed =
      some { c1Claimed with googleSheetsInProgress := true } ∧
    claimGoogleSheets initStatus = some c1Claimed ∧
    (claimGoogleSheets c1Claimed).isSome = true := by
  refine ⟨rfl, rfl, rfl, rfl⟩

/-- Claim C1 (amended): the channel-claim operation for the Google Sheets
channel is a single conditional write that succeeds exactly when
`sent = false` — the `inProgress` flag is not part of the filter — and
transitions the state to `inProgress = true`; since `sent` is unchanged, a
second claim attempt on the claimed state also succeeds, so concurrent claim
attempts are only excluded against a completed send, not against one
another. -/
theorem claimGoogleSheets_characterization (st st' : RegStatus) :
    ((claimGoogleSheets st).isSome ↔ st.googleSheetsSent = false) ∧
    (claimGoogleSheets st = some st' →
      st' = { st with googleSheetsInProgress := true } ∧
      (claimGoogleSheets st').isSome = true) := by
  constructor
  · unfold claimGoogleSheets
    by_cases h : st.googleSheetsSent = false <;> simp [h]
  · intro h
    unfold claimGoogleSheets at h ⊢
    by_cases hs : st.googleSheetsSent = false
    · simp only [if_pos hs] at h
      cases h
      simp [hs]
    · simp [hs] at h

/-- Claim C2: a re-submission whose identity key (client, email, broadcast —
or client and email among unknown-broadcast rows) finds an existing document
is merged into that document in place: the store keeps its length, the write
targets the existing `_id`, `alreadyRegistered` is set, each truthy
previously-obtained WebinarGeek artifact (watch link, confirmation link,
platform id, response payload) is carried into the new write, and the number
of documents matching the identity key does not change — the store never
gains a second document for the key. -/
theorem register_webinar_merges (regs : List RegDoc) (sub : Submission)
    (newId : Nat) (e : RegDoc)
    (hids : (regs.map RegDoc._id).Nodup)
    (hfound : findExisting regs sub.client_id sub.email
      (pyOrStr sub.broadcastId sub.webinarId) = some e) :
    (writeRegData regs (some e)
        (carryForward (initRegData sub sub.client_id) e) newId).1.length =
      regs.length ∧
    (writeRegData regs (some e)
        (carryForward (initRegData sub sub.client_id) e) newId).2 = e._id ∧
    (carryForward (initRegData sub sub.client_id) e).alreadyRegistered = true ∧
    (pyTruthyStr e.data.watchLink = true →
      (carryForward (initRegData sub sub.client_id) e).watchLink =
        e.data.watchLink) ∧
    (pyTruthyStr e.data.confirmationLink = true →
      (carryForward (initRegData sub sub.client_id) e).confirmationLink =
        e.data.confirmationLink) ∧
    (pyTruthyNat e.data.webinarGeekId = true →
      (carryForward (initRegData sub sub.client_id) e).webinarGeekId =
        e.data.webinarGeekId) ∧
    (e.data.webinarGeekResponse.isSome = true →
      (carryForward (initRegData sub sub.client_id) e).webinarGeekResponse =
        e.data.webinarGeekResponse) ∧
    (writeRegData regs (some e)
        (carryForward (initRegData sub sub.client_id) e) newId).1.countP
        (identityMatches sub.client_id sub.email
          (pyOrStr sub.broadcastId sub.webinarId)) =
      regs.countP
        (identityMatches sub.client_id sub.email
          (pyOrStr sub.broadcastId sub.webinarId)) := by
  have hmem : e ∈ regs := List.mem_of_find?_eq_some hfound
  have hme : identityMatches sub.client_id sub.email
      (pyOrStr sub.broadcastId sub.webinarId) e = true := List.find?_some hfound
  refine ⟨by simp [writeRegData], rfl, rfl, ?_, ?_, ?_, ?_, ?_⟩
  · intro h; simp [carryForward, h]
  · intro h; simp [carryForward, h]
  · intro h; simp [carryForward, h]
  · intro h; simp [carryForward, h]
  · unfold writeRegData
    rw [List.countP_map]
    apply List.countP_congr
    intro d hd
    by_cases hid : d._id = e._id
    · have hde : d = e := List.inj_on_of_nodup_map hids hd hmem hid
      subst hde
      simp only [Function.comp_apply, beq_self_eq_true, if_true]
      rw [merged_matches_identity sub d, hme]
    · simp only [Function.comp_apply]
      rw [if_neg (by simpa using hid)]

/-- Claim C2, witness at a concrete store: one existing document with the
same identity key is merged in place, `alreadyRegistered` is set and the
stored watch link is carried forward. -/
theorem register_webinar_merges_witness :
    (writeRegData [c2Existing] (some c2Existing)
        (carryForward (initRegData exSub exSub.client_id) c2Existing) 99).1.length =
      1 ∧
    (carryForward (initRegData exSub exSub.client_id) c2Existing).alreadyRegistered =
      true ∧
    (carryForward (initRegData exSub exSub.client_id) c2Existing).watchLink =
      c2Existing.data.watchLink := by
  have h := register_webinar_merges [c2Existing] exSub 99 c2Existing
    (by decide) (by decide)
  exact ⟨h.1, h.2.2.1, h.2.2.2.1 (by decide)⟩

/-- Claim C3: a retry dispatch of the Google Sheets channel with current
retry count below the cap that ends in a retryable failure (non-2xx status,
body with `ok=false` and no `skipped=true`, or an exception) records
`inProgress = false`, `retryCount = r + 1` and
`nextRetryAt = now + backoff(r)`, where the backoff by 0-based attempt index
is 1, 2, 5, 10 minutes for r = 0..3 and a flat 30 minutes for every
r >= 4. -/
theorem retryGoogleSheets_backoff (r : RegDoc) (now : Nat) (resp : SheetsResp)
    (hcap : r.data.status.googleSheetsRetryCount < 5)
    (hsent : r.data.status.googleSheetsSent = false)
    (hfail : sheetsRetryableFailure resp = true) :
    ((retryGoogleSheets r now resp).doc.data.status.googleSheetsInProgress = false ∧
     (retryGoogleSheets r now resp).doc.data.status.googleSheetsRetryCount =
       r.data.status.googleSheetsRetryCount + 1 ∧
     (retryGoogleSheets r now resp).doc.data.status.googleSheetsNextRetryAt =
       some (now + backoffMinutes r.data.status.googleSheetsRetryCount)) ∧
    backoffMinutes 0 = 1 ∧ backoffMinutes 1 = 2 ∧ backoffMinutes 2 = 5 ∧
    backoffMinutes 3 = 10 ∧ ∀ k, 4 ≤ k → backoffMinutes k = 30 := by
  refine ⟨?_, rfl, rfl, rfl, rfl, ?_⟩
  · rw [retryGoogleSheets_failure_update r now resp hcap hsent hfail]
    simp [sheetsFailureUpdate]
  · intro k hk
    unfold backoffMinutes
    rw [if_neg (by omega), if_neg (by omega), if_neg (by omega),
      if_neg (by omega)]

/-- Claim C3, witness: a third attempt (count 2) failing with HTTP 500 at
minute 100 records count 3 and next retry at minute 105. -/
theorem retryGoogleSheets_backoff_witness :
    (retryGoogleSheets c3Doc 100
        (SheetsResp.httpFail 500)).doc.data.status.googleSheetsRetryCount = 3 ∧
    (retryGoogleSheets c3Doc 100
        (SheetsResp.httpFail 500)).doc.data.status.googleSheetsNextRetryAt =
      some 105 ∧
    (retryGoogleSheets c3Doc 100
        (SheetsResp.httpFail 500)).doc.data.status.googleSheetsInProgress =
      false := by
  have h := retryGoogleSheets_backoff c3Doc 100 (SheetsResp.httpFail 500)
    (by decide) (by decide) (by decide)
  exact ⟨h.1.2.1, h.1.2.2, h.1.1⟩

/-- Claim C4, counterexample: the GHL channel has no retry counter, no
backoff and no exhausted state — after a retryable GHL failure the stored
document is completely unchanged (no per-channel `retryCount` exists to
increase), and the very next sweep dispatches the GHL channel again, so the
claimed cap-and-exhaustion behaviour does not hold for every channel. -/
theorem c4_counterexample :
    (processRegistration ghlOnlyCfg ghlFailedDoc ghlFailInput).doc = ghlFailedDoc ∧
    HttpCall.ghlPost ∈
      (processRegistration ghlOnlyCfg ghlFailedDoc ghlFailInput).calls ∧
    HttpCall.ghlPost ∈
      (processRegistration ghlOnlyCfg
        (processRegistration ghlOnlyCfg ghlFailedDoc ghlFailInput).doc
        ghlFailInput).calls := by
  decide

/-- Claim C4 (amended): for the Google Sheets channel — the only channel with
a retry counter — each retryable failure below the cap of 5 strictly
increases `retryCount`; once `retryCount >= 5` the dispatch marks the channel
with the terminal `googleSheetsFinalState = "exhausted"`, distinct from
`sent` (unchanged) and from a pending retry (`inProgress` released), and
along every sequence of subsequent sweep passes neither the conditional
claim nor a sheets POST is ever attempted again. -/
theorem googleSheets_cap_exhaustion (cfg : ClientConfig) (r : RegDoc) (now : Nat)
    (resp : SheetsResp) (inputs : List SweepInput) :
    (r.data.status.googleSheetsRetryCount < 5 →
      r.data.status.googleSheetsSent = false →
      sheetsRetryableFailure resp = true →
      (retryGoogleSheets r now resp).doc.data.status.googleSheetsRetryCount =
        r.data.status.googleSheetsRetryCount + 1 ∧
      r.data.status.googleSheetsRetryCount <
        (retryGoogleSheets r now resp).doc.data.status.googleSheetsRetryCount) ∧
    (5 ≤ r.data.status.googleSheetsRetryCount →
      (retryGoogleSheets r now resp).doc.data.status.googleSheetsFinalState =
        some "exhausted" ∧
      (retryGoogleSheets r now resp).doc.data.status.googleSheetsInProgress =
        false ∧
      (retryGoogleSheets r now resp).doc.data.status.googleSheetsSent =
        r.data.status.googleSheetsSent ∧
      (retryGoogleSheets r now resp).ops = [DbOp.sheetsExhausted] ∧
      (retryGoogleSheets r now resp).calls = [] ∧
      traceNoSheetsAttempt (runTrace cfg r inputs) = true) := by
  constructor
  · intro h1 h2 h3
    rw [retryGoogleSheets_failure_update r now resp h1 h2 h3]
    simp [sheetsFailureUpdate]
  · intro h
    obtain ⟨e1, e2, e3, e4, e5, e6⟩ := retryGoogleSheets_exhausted r now resp h
    exact ⟨e2, e3, e4, e5, e6, runTrace_exhausted cfg r inputs h⟩

/-- Claim C4, witness: at the cap a concrete registration is marked
exhausted and a two-pass trace performs no claim and no sheets POST. -/
theorem googleSheets_cap_exhaustion_witness :
    (retryGoogleSheets c4CapDoc 0 SheetsResp.exn).doc.data.status.googleSheetsFinalState =
      some "exhausted" ∧
    traceNoSheetsAttempt (runTrace exCfg c4CapDoc [ghlFailInput, ghlFailInput]) =
      true := by
  have h := (googleSheets_cap_exhaustion exCfg c4CapDoc 0 SheetsResp.exn
    [ghlFailInput, ghlFailInput]).2 (by decide)
  exact ⟨h.1, h.2.2.2.2.2⟩

/-- Claim C5, counterexample: the sweep never consults
`is_broadcast_still_active`; in a store where broadcast `b1` is still the
upcoming broadcast of client `c1` but its `broadcasts` record is marked
ended, the Activity Gate reports the broadcast inactive, yet the unresolved
registration for `b1` is selected by the sweep. -/
theorem c5_counterexample :
    is_broadcast_still_active "b1" "c1" c5db 0 = false ∧
    c5reg ∈ selectedRegs c5db := by
  decide

/-- Claim C5 (amended): a sweep invocation selects exactly those
registrations whose client has an `upcoming-broadcast` record with a truthy
broadcast id, whose `broadcastId` equals that record, and which have at
least one unresolved channel; registrations with any other (stale) broadcast
id are never selected, and a client without such a record contributes no
registrations; the Activity Gate (`is_broadcast_still_active`) is not part
of the selection. -/
theorem selectedRegs_mem (db : SweepDb) (r : RegDoc) :
    r ∈ selectedRegs db ↔
      ∃ cid bid, (cid, bid) ∈ client_broadcast_map db.upcoming ∧
        r ∈ db.registrants ∧ r.data.client_id = cid ∧
        r.data.broadcastId = some bid ∧ hasUnresolvedChannel r = true := by
  unfold selectedRegs
  simp only [List.mem_flatMap, List.mem_filter, Bool.and_eq_true, beq_iff_eq]
  constructor
  · rintro ⟨⟨cid, bid⟩, hp, hr, ⟨h1, h2⟩, h3⟩
    exact ⟨cid, bid, hp, hr, h1, h2, h3⟩
  · rintro ⟨cid, bid, hp, hr, h1, h2, h3⟩
    exact ⟨(cid, bid), hp, hr, ⟨h1, h2⟩, h3⟩

/-- Claim C6, counterexample: the GHL channel is dispatched by the sweep
without any preceding conditional claim (the pass performs no database write
at all here) and without any deferral check — the registration has no GHL
`nextRetryAt` or `retryCount` field to consult. -/
theorem c6_counterexample :
    HttpCall.ghlPost ∈
      (processRegistration ghlOnlyCfg ghlFailedDoc ghlFailInput).calls ∧
    (processRegistration ghlOnlyCfg ghlFailedDoc ghlFailInput).ops = [] := by
  decide

/-- Claim C6 (amended): only the Google Sheets channel has backoff-aware
gating: the sweep skips it (no claim, no POST) when `googleSheetsNextRetryAt`
is set and in the future, a sheets POST happens only after the conditional
claim was attempted, and a failed claim (channel already sent) ends the
dispatch with no POST and no document change; the GHL channel, by contrast,
is dispatched whenever it is unresolved and a URL is configured, with no
deferral and no claim. -/
theorem sweep_channel_gating (cfg : ClientConfig) (r : RegDoc) (inp : SweepInput)
    (t : Nat) :
    (r.data.status.googleSheetsNextRetryAt = some t → inp.now < t →
      DbOp.sheetsClaim ∉ (processRegistration cfg r inp).ops ∧
      HttpCall.sheetsPost ∉ (processRegistration cfg r inp).calls) ∧
    (HttpCall.sheetsPost ∈ (processRegistration cfg r inp).calls →
      DbOp.sheetsClaim ∈ (processRegistration cfg r inp).ops) ∧
    (r.data.status.googleSheetsSent = true →
      r.data.status.googleSheetsRetryCount < 5 →
      retryGoogleSheets r inp.now inp.sheets =
        { doc := r, ops := [DbOp.sheetsClaim], calls := [] }) ∧
    (r.data.status.ghlSent = false → pyTruthyStr cfg.ghl_url = true →
      HttpCall.ghlPost ∈ (processRegistration cfg r inp).calls) := by
  refine ⟨?_, ?_, ?_, ?_⟩
  · intro hn ht
    obtain ⟨-, -, -, a4, a5, -⟩ := wgSweepStep_frame cfg r inp.wg
    obtain ⟨-, -, -, -, b5, b6, -⟩ :=
      ghlSweepStep_frame cfg r (wgSweepStep cfg r inp.wg).doc inp.ghlOk
    have hdef := sheetsSweepStep_deferred cfg r
      (ghlSweepStep cfg r (wgSweepStep cfg r inp.wg).doc inp.ghlOk).doc
      inp.now inp.sheets t hn ht
    unfold processRegistration
    constructor <;> simp_all [noEffect, List.mem_append]
  · intro hmem
    obtain ⟨-, -, -, -, a5, -⟩ := wgSweepStep_frame cfg r inp.wg
    obtain ⟨-, -, -, -, -, b6, -⟩ :=
      ghlSweepStep_frame cfg r (wgSweepStep cfg r inp.wg).doc inp.ghlOk
    obtain ⟨-, -, -, s4⟩ := sheetsSweepStep_wg_frame cfg r
      (ghlSweepStep cfg r (wgSweepStep cfg r inp.wg).doc inp.ghlOk).doc
      inp.now inp.sheets
    unfold processRegistration at hmem ⊢
    simp only [List.mem_append] at hmem ⊢
    rcases hmem with (h | h) | h
    · exact absurd h a5
    · exact absurd h b6
    · have hc := s4 h
      tauto
  · intro hs hc
    exact retryGoogleSheets_claim_fails r inp.now inp.sheets hs hc
  · intro hg hu
    obtain ⟨-, -, -, -, -, b6⟩ :=
      retryGhl_frame (wgSweepStep cfg r inp.wg).doc inp.ghlOk
    unfold processRegistration ghlSweepStep
    simp only [hg, hu, and_self, if_true, b6]
    simp [List.mem_append]

/-- Claim C7: an intake WebinarGeek dispatch answered with HTTP 422 whose
message matches "already registered", "duplicate" or "already exists" is
treated as success: `alreadyRegistered` is set, the channel is marked sent,
one best-effort lookup of the pre-existing subscription is performed, and
the response surfaces platform status "registered" with `success = true`. -/
theorem register_duplicate_is_success (w : IntakeWorld) (sub : Submission)
    (cfg : ClientConfig) (msg : String)
    (hcfg : get_client_config w.clients sub.client_id = some cfg)
    (hkey : pyTruthyStr cfg.webinar_geek_api_key = true)
    (hb : validBroadcastId (pyOrStr sub.broadcastId sub.webinarId) = true)
    (hwg : w.wg = WgIntakeResp.unprocessable msg)
    (hmsg : strHas (strLower msg) "already registered" = true ∨
      strHas (strLower msg) "duplicate" = true ∨
      strHas (strLower msg) "already exists" = true) :
    (registerWebinar w sub).finalData.map (fun d => d.alreadyRegistered) =
      some true ∧
    (registerWebinar w sub).finalData.map (fun d => d.status.webinarGeekSent) =
      some true ∧
    HttpCall.wgLookup ∈ (registerWebinar w sub).calls ∧
    (registerWebinar w sub).response.wgStatusField = some (some "registered") ∧
    (registerWebinar w sub).response.successField = some true := by
  have hdup : wgDupMatch msg = true := by
    unfold wgDupMatch alreadyRegisteredPhrases
    simp only [List.any_cons, List.any_nil, Bool.or_eq_true]
    tauto
  obtain ⟨d1, d2, d3⟩ := wgIntakeStep_duplicate
    (match (if w.dbQueryOk then findExisting w.regs sub.client_id sub.email
        (pyOrStr sub.broadcastId sub.webinarId) else none) with
      | some e => carryForward (initRegData sub sub.client_id) e
      | none => initRegData sub sub.client_id)
    msg w.lookup hdup
  unfold registerWebinar
  rw [hcfg]
  unfold registerWebinarActive
  simp only [hwg, hkey, hb, Bool.and_self]
  simp only [d2, if_true]
  refine ⟨by simp [d1], by simp, ?_, ?_, ?_⟩
  · simp [List.mem_append, d3]
  · simp only [IntakeResponse.wgStatusField, Option.some.injEq]
    exact (buildIntakeResponse_registered _ _ (by simp [d1])).1
  · simp only [IntakeResponse.successField, Option.some.injEq]
    exact (buildIntakeResponse_registered _ _ (by simp [d1])).2

/-- Claim C7, witness: a concrete 422 with message "Email Already Registered
for broadcast" yields platform status "registered", `alreadyRegistered` set
and the best-effort lookup performed. -/
theorem register_duplicate_is_success_witness :
    (registerWebinar c7World exSub).response.wgStatusField =
      some (some "registered") ∧
    (registerWebinar c7World exSub).finalData.map (fun d => d.alreadyRegistered) =
      some true ∧
    HttpCall.wgLookup ∈ (registerWebinar c7World exSub).calls := by
  have h := register_duplicate_is_success c7World exSub exCfg
    "Email Already Registered for broadcast" (by decide) (by decide) (by decide)
    rfl (Or.inl (by decide))
  exact ⟨h.2.2.2.1, h.1, h.2.2.1⟩

/-- Claim C8, counterexample: with every store read and write failing, the
response does carry `success = true`, but its message is "Registration
successful! Your information has been recorded." and its note promises a
confirmation email — neither contains any negation or persistence
vocabulary, so the response does not explicitly indicate that the record was
not durably persisted (the spec-modelled predicate `mentionsUnpersisted`
rejects both). -/
theorem c8_counterexample :
    (registerWebinar c8World exSub).response.successField = some true ∧
    (registerWebinar c8World exSub).response.messageField = some msgDbDown ∧
    (registerWebinar c8World exSub).response.noteField = some (some noteDbDown) ∧
    mentionsUnpersisted msgDbDown = false ∧
    mentionsUnpersisted noteDbDown = false := by
  decide

/-- Claim C8 (amended): if every store read and write fails during intake,
`register_webinar` still returns `success = true` with the dedicated
store-unavailable message and note (which do not state that the record went
unpersisted), all three channel dispatches are still attempted when
configured, the store is left unchanged, and the registration is never
rejected. -/
theorem register_store_down (w : IntakeWorld) (sub : Submission)
    (cfg : ClientConfig)
    (hcfg : get_client_config w.clients sub.client_id = some cfg)
    (hsheet : pyTruthyStr cfg.google_sheet_url = true)
    (hkey : pyTruthyStr cfg.webinar_geek_api_key = true)
    (hghl : pyTruthyStr cfg.ghl_url = true)
    (hb : validBroadcastId (pyOrStr sub.broadcastId sub.webinarId) = true)
    (hq : w.dbQueryOk = false) :
    HttpCall.sheetsPost ∈ (registerWebinar w sub).calls ∧
    HttpCall.wgPost ∈ (registerWebinar w sub).calls ∧
    HttpCall.ghlPost ∈ (registerWebinar w sub).calls ∧
    (registerWebinar w sub).regs = w.regs ∧
    (∃ rd, (registerWebinar w sub).response = IntakeResponse.ok rd ∧
      rd.success = true ∧ rd.message = msgDbDown ∧ rd.note = some noteDbDown) := by
  have hpost := wgIntakeStep_attempt_posts (initRegData sub sub.client_id)
    w.wg w.lookup
  unfold registerWebinar
  rw [hcfg]
  unfold registerWebinarActive
  simp only [hq, hkey, hb, hsheet, hghl, Bool.and_self, Bool.false_and, if_false,
    Bool.false_eq_true, ite_self]
  refine ⟨?_, ?_, ?_, ?_, ?_⟩
  · simp [List.mem_append]
  · simp [List.mem_append, hpost]
  · simp [List.mem_append]
  · simp
  · refine ⟨_, rfl, ?_, ?_, ?_⟩ <;> simp [buildIntakeResponse]

/-- Claim C8, witness: with the concrete store-down world all three channels
are attempted and the store is untouched. -/
theorem register_store_down_witness :
    HttpCall.sheetsPost ∈ (registerWebinar c8World exSub).calls ∧
    HttpCall.wgPost ∈ (registerWebinar c8World exSub).calls ∧
    HttpCall.ghlPost ∈ (registerWebinar c8World exSub).calls ∧
    (registerWebinar c8World exSub).regs = c8World.regs := by
  have h := register_store_down c8World exSub exCfg (by decide) (by decide)
    (by decide) (by decide) (by decide) rfl
  exact ⟨h.1, h.2.1, h.2.2.1, h.2.2.2.1⟩

/-- Claim C9: a submission whose client id matches no client document with
status "active" is rejected with HTTP 400 before anything else happens: no
HTTP call is fired, the store is unchanged, and no registration data is
produced. -/
theorem register_rejects_inactive (w : IntakeWorld) (sub : Submission)
    (h : ∀ c ∈ w.clients, ¬(c.client_id = sub.client_id ∧ c.status = "active")) :
    registerWebinar w sub =
      { response := .httpError 400, regs := w.regs, calls := [],
        finalData := none } := by
  have hfind : w.clients.find?
      (fun c => c.client_id == sub.client_id && c.status == "active") = none := by
    apply List.find?_eq_none.mpr
    intro c hc
    simp only [Bool.and_eq_true, beq_iff_eq, not_and]
    intro h1 h2
    exact h c hc ⟨h1, h2⟩
  have hcfg : get_client_config w.clients sub.client_id = none := by
    unfold get_client_config
    split_ifs with he
    · rfl
    · rw [hfind]
  unfold registerWebinar
  rw [hcfg]

/-- Claim C9, witness: a suspended client is rejected with HTTP 400, zero
calls and an untouched store. -/
theorem register_rejects_inactive_witness :
    registerWebinar c9World exSub =
      { response := .httpError 400, regs := c9World.regs, calls := [],
        finalData := none } :=
  register_rejects_inactive c9World exSub (by decide)

/-- Claim C10: the sweep re-invokes the WebinarGeek dispatcher only when the
registration carries no truthy stored `webinarGeekId` — a WebinarGeek POST in
a pass implies the id was absent — and once an id is stored, every pass of
every subsequent sweep trace preserves it and performs no WebinarGeek POST,
even while `webinarGeekSent` remains false. -/
theorem wg_dispatch_only_without_id (cfg : ClientConfig) (r : RegDoc)
    (inp : SweepInput) (inputs : List SweepInput) :
    (HttpCall.wgPost ∈ (processRegistration cfg r inp).calls →
      pyTruthyNat r.data.webinarGeekId = false) ∧
    (pyTruthyNat r.data.webinarGeekId = true →
      traceNoWgPost (runTrace cfg r inputs) = true) := by
  constructor
  · intro hmem
    by_cases h : pyTruthyNat r.data.webinarGeekId = true
    · exact absurd hmem (processRegistration_wgid_step cfg r inp h).2
    · simpa using h
  · intro h
    exact runTrace_wgid cfg r inputs h
